import Mathlib

set_option autoImplicit false

/-!
# Verification of the intecture-api core protocol and endpoint layer

This file is a shallow embedding of the `intecture-api` repository: the
line-framed message codec (`src/core/src/host/remote.rs`), the streaming
command subsystem (`src/core/src/command/mod.rs`), the idempotence wrappers
of the `Package` and `Service` endpoints (`src/core/src/package/mod.rs`,
`src/core/src/service/mod.rs`), the provider factories
(`src/core/src/package/providers/mod.rs`, `src/core/src/service/providers/mod.rs`)
and the agent's request handler (`src/agent/src/main.rs`).

Conventions of the embedding:
* wire bytes are `List Nat` (one `Nat` per byte, newline is `10`);
* body chunks at the command layer are `String`s (the source converts chunk
  bytes with `String::from_utf8_lossy` before filtering);
* futures are modelled by their resolved values; fallible operations return
  `Except`/`Option`; a `panic!`/`unwrap` failure is modelled by a dedicated
  `none`/`panicked` result;
* `serde_json` (an external library) is modelled by the canonical
  serialization it produces for `ExitStatus` and a parser for exactly that
  canonical form.
-/

/-- The status of a finished command (`ExitStatus` in `src/core/src/command/mod.rs`):
`success` is true exactly for a zero exit code, `code` is `none` for signal
termination. The source type derives `Serialize, Deserialize`. -/
structure ExitStatus where
  success : Bool
  code : Option Int
deriving DecidableEq, Repr

/-- Modelled from the external `serde_json` library: the canonical JSON text
`serde_json::to_string` produces for an `ExitStatus` value, with fields in
declaration order (`success`, then `code`). -/
def ExitStatus.toJson (s : ExitStatus) : String :=
  "\x7b\"success\":" ++ (if s.success then "true" else "false") ++
    ",\"code\":" ++ (match s.code with | some c => toString c | none => "null") ++ "\x7d"

/-- Drop an expected literal prefix from a character list, or fail. -/
def dropLit : List Char → List Char → Option (List Char)
  | [], cs => some cs
  | p :: ps, c :: cs => if c = p then dropLit ps cs else none
  | _ :: _, [] => none

/-- Accumulate a run of decimal digits. -/
def takeDigits : List Char → Nat → Nat × List Char
  | c :: cs, acc =>
    if c.isDigit then takeDigits cs (acc * 10 + (c.toNat - 48)) else (acc, c :: cs)
  | [], acc => (acc, [])

/-- Parse a JSON integer (optional leading minus, at least one digit). -/
def parseIntChars : List Char → Option (Int × List Char)
  | c :: cs =>
    if c = '-' then
      match cs with
      | d :: _ =>
        if d.isDigit then
          match takeDigits cs 0 with
          | (n, rest) => some (-(n : Int), rest)
        else none
      | [] => none
    else if c.isDigit then
      match takeDigits (c :: cs) 0 with
      | (n, rest) => some ((n : Int), rest)
    else none
  | [] => none

/-- Parse a JSON boolean literal. -/
def parseBoolChars (cs : List Char) : Option (Bool × List Char) :=
  match dropLit "true".data cs with
  | some rest => some (true, rest)
  | none =>
    match dropLit "false".data cs with
    | some rest => some (false, rest)
    | none => none

/-- Parse the `code` field value: `null` or an integer. -/
def parseCodeChars (cs : List Char) : Option (Option Int × List Char) :=
  match dropLit "null".data cs with
  | some rest => some (none, rest)
  | none =>
    match parseIntChars cs with
    | some (i, rest) => some (some i, rest)
    | none => none

/-- Modelled from the external `serde_json` library: `serde_json::from_str`
for `ExitStatus`, restricted to the canonical serialization grammar produced
by `ExitStatus.toJson` (the only form the producer in `into_msg` emits). -/
def parseExitStatusChars (cs : List Char) : Option ExitStatus :=
  match dropLit "\x7b\"success\":".data cs with
  | none => none
  | some r1 =>
    match parseBoolChars r1 with
    | none => none
    | some (b, r2) =>
      match dropLit ",\"code\":".data r2 with
      | none => none
      | some (r3) =>
        match parseCodeChars r3 with
        | none => none
        | some (c, r4) => if r4 = ['\x7d'] then some ⟨b, c⟩ else none

/-- `serde_json::from_str` for `ExitStatus` on a `String`. -/
def parseExitStatus (s : String) : Option ExitStatus :=
  parseExitStatusChars s.data

/-- The client-side sentinel test of `impl FromMessage for Child`
(`src/core/src/command/mod.rs:336-353`): a chunk is consumed exactly when its
text starts with the literal `ExitStatus:` (`s.starts_with`, then
`s.split_at(11)` — the prefix is 11 one-byte characters) and the remainder
deserializes as an `ExitStatus`; in that case this returns the decoded
value. -/
def sentinelValue (s : String) : Option ExitStatus :=
  match dropLit "ExitStatus:".data s.data with
  | some rest => parseExitStatusChars rest
  | none => none

/-- Whether a chunk is a valid sentinel chunk. -/
def isSentinel (s : String) : Bool := (sentinelValue s).isSome

/-- The `filter_map` closure of `impl FromMessage for Child` run over a list
of body chunks. The `Bool` argument models the `Option` around the oneshot
sender `tx` (`true` while the sender has not yet been taken). The result is
`(passed, sent)`: `passed` is the list of chunks that pass through to the
line stream (`none` if processing panicked on `tx.take().unwrap()` for a
second sentinel), and `sent` is the value sent on the oneshot channel,
if any. -/
def runFilter : Bool → List String → Option (List String) × Option ExitStatus
  | _, [] => (some [], none)
  | tx, s :: rest =>
    match sentinelValue s with
    | some st =>
      if tx then
        ((runFilter false rest).1, some st)
      else
        (none, none)
    | none =>
      match runFilter tx rest with
      | (p, sent) => (p.map (fun q => s :: q), sent)

/-- The exit-status future of a remotely decoded `Child`
(`src/core/src/command/mod.rs:356-359`): the oneshot receiver `rx`, with
errors chained to `"Stream dropped before ExitStatus was sent"`. The client
consumes the first `k` chunks of the body `cs` and then drops the stream; the
future resolves to the value sent on the oneshot if the consumed prefix
produced one, and otherwise to the canceled-oneshot error (the sender is
dropped together with the stream). -/
def remoteExitStatus (cs : List String) (k : Nat) : Except String ExitStatus :=
  match (runFilter true (cs.take k)).2 with
  | some st => Except.ok st
  | none => Except.error "Stream dropped before ExitStatus was sent"

/-! ## The line-framed codec (`JsonLineCodec`, `src/core/src/host/remote.rs`)

Wire bytes are `List Nat`; the newline byte is `10`. A header value is
represented by its JSON serialization bytes (the codec calls
`serde_json::to_vec` / `from_slice` on them; compact JSON never contains a
raw newline byte, and deserialization inverts serialization, so the byte
list is a faithful stand-in for the value). -/

/-- A decoded frame (`Frame` of `tokio_proto::streaming::pipeline`,
as produced/consumed by `JsonLineCodec`): a header with its has-body flag,
or a body chunk (`none` is the end-of-body marker). -/
inductive Frame where
  | message (hdr : List Nat) (hasBody : Bool)
  | bodyChunk (chunk : Option (List Nat))
deriving DecidableEq, Repr

/-- `Encoder::encode` (`src/core/src/host/remote.rs:239-266`): a header frame
writes the JSON bytes then the has-body flag byte (`1` or `0`); a chunk frame
writes the chunk bytes; the end-of-body frame writes nothing; every frame is
terminated by `\n`. -/
def encodeFrame : Frame → List Nat
  | .message hdr hasBody => hdr ++ [if hasBody then 1 else 0] ++ [10]
  | .bodyChunk (some c) => c ++ [10]
  | .bodyChunk none => [10]

/-- Encoding of one whole message: the header frame, then (if a body stream
is present) each chunk frame in order followed by the end-of-body frame. -/
def encodeMessage (hdr : List Nat) (body : Option (List (List Nat))) : List Nat :=
  encodeFrame (.message hdr body.isSome) ++
    match body with
    | some cs => (cs.map (fun c => encodeFrame (.bodyChunk (some c)))).flatten ++
        encodeFrame (.bodyChunk none)
    | none => []

/-- `buf.iter().position(|b| *b == b'\n')` followed by the two `split_to`
calls of `Decoder::decode`: split the buffer at the first newline, returning
the line (newline excluded) and the remaining buffer. `none` when the buffer
holds no newline (the decoder returns `Ok(None)` and waits for more data). -/
def splitLine : List Nat → Option (List Nat × List Nat)
  | [] => none
  | b :: rest =>
    if b = 10 then some ([], rest)
    else
      match splitLine rest with
      | some (l, r) => some (b :: l, r)
      | none => none

/-- Result of running the decoder until it needs more data: the frames
decoded so far, or a panic (`split_last().expect(..)` on an empty header
line). -/
inductive DecodeResult where
  | frames (fs : List Frame)
  | panicked
deriving DecidableEq, Repr

/-- `Decoder::decode` (`src/core/src/host/remote.rs:184-232`) run repeatedly
on a buffer until no newline remains, threading the `decoding_head` state:
in head mode the line's last byte is the has-body flag (an empty header line
panics in `split_last().expect(..)`), and the decoder switches to body mode
exactly when the flag byte equals `1`; in body mode an empty line is the
end-of-body marker and returns the decoder to head mode. -/
def decodeAll (head : Bool) (buf : List Nat) : DecodeResult :=
  match h : splitLine buf with
  | none => .frames []
  | some (line, rest) =>
    if head then
      match line.getLast? with
      | none => .panicked
      | some flag =>
        match decodeAll (if flag = 1 then false else true) rest with
        | .panicked => .panicked
        | .frames fs => .frames (.message line.dropLast (flag = 1) :: fs)
    else
      if line = [] then
        match decodeAll true rest with
        | .panicked => .panicked
        | .frames fs => .frames (.bodyChunk none :: fs)
      else
        match decodeAll false rest with
        | .panicked => .panicked
        | .frames fs => .frames (.bodyChunk (some line) :: fs)
termination_by buf.length
decreasing_by
  all_goals
    (have key : ∀ b l r, splitLine b = some (l, r) → r.length < b.length := by
      intro b
      induction b with
      | nil => intro l r hs; simp [splitLine] at hs
      | cons x xs ih =>
        intro l r hs
        by_cases hx : x = 10
        · simp [splitLine, hx] at hs
          have h2 := hs.2
          subst h2
          simp [Nat.lt_succ_self]
        · simp [splitLine, hx] at hs
          rcases hr : splitLine xs with _ | ⟨l2, r2⟩
          · rw [hr] at hs; simp at hs
          · rw [hr] at hs
            have hlt := ih l2 r2 hr
            simp at hs
            have h2 := hs.2
            subst h2
            simp only [List.length_cons]
            omega
     exact key buf line rest h)

/-! ## Server-side encoding of a `Child` (`impl IntoMessage for Child`,
`src/core/src/command/mod.rs:363-395`)

`into_msg` spawns `stream.forward(tx1).join(status)`: the output stream is
forwarded chunk by chunk into the body channel through `tx1`, and `status`
sends the single frame `"ExitStatus:" ++ json` through the cloned sender
`tx2` when the exit-status future resolves. The two sub-futures run joined,
and the code does not serialize the sentinel send after the output sends:
for a locally spawned child the exit-status future is the raw
`tokio_process` child future, which resolves when the process is reaped —
independently of whether the reader has drained the pipes — and each clone
of the body channel's `mpsc::Sender` holds its own guaranteed slot, so under
backpressure the sentinel send on `tx2` can complete while output chunks are
still parked on `tx1`. The order in which the sends reach the body channel
is therefore an input of the model: a schedule, a list of events in
completion order, each output line as it is forwarded plus the resolution
of the exit-status future. Within one schedule the output lines keep stream
order (`forward` sends them one by one), but the exit event may fall
anywhere. -/

/-- One send event inside the spawned `forward/join` task, in the order the
sends reach the body channel. -/
inductive ChildEvent where
  | line (s : String)
  | exited
deriving DecidableEq, Repr

/-- The sentinel frame text built by `into_msg`:
`"ExitStatus:"` followed by the JSON encoding of the status. -/
def sentinelText (st : ExitStatus) : String :=
  "ExitStatus:" ++ ExitStatus.toJson st

/-- The body chunks written by the task `into_msg` spawns, in event order:
a forwarded output line becomes one chunk, the exit-status resolution
becomes the sentinel chunk. -/
def intoMsgBody : List ChildEvent → ExitStatus → List String
  | [], _ => []
  | .line s :: evs, st => s :: intoMsgBody evs st
  | .exited :: evs, st => sentinelText st :: intoMsgBody evs st

/-! ## The `Child` handle (`src/core/src/command/mod.rs:251-287`) -/

/-- The error kinds a `CommandResult` can surface (`ErrorKind` in
`src/core/src/errors.rs` as used by `Child::result`): `Command(output)` for a
non-zero exit, or any error propagated from the joined futures. -/
inductive CmdError where
  | command (output : String)
  | other (msg : String)
deriving DecidableEq, Repr

/-- A `Child` whose futures are modelled by their resolved values: the line
stream (if not yet taken) and the exit-status future's outcome. -/
structure ChildModel where
  stream : Option (List String)
  exitStatus : Except String ExitStatus

/-- `Child::take_stream`: `self.stream.take()` — returns the stream and
leaves `none` behind. -/
def ChildModel.takeStream (c : ChildModel) : Option (List String) × ChildModel :=
  (c.stream, { c with stream := none })

/-- The fold in `Child::result`: `stream.fold(String::new(), push_str)` —
the lines concatenated in order. -/
def foldOutput (ls : List String) : String :=
  ls.foldl (fun acc l => acc ++ l) ""

/-- `Child::result` (`src/core/src/command/mod.rs:267-286`): `none` if the
stream was already taken; otherwise fold the stream into a string, join with
the exit status, and yield `Ok(output)` on success or `Err(Command(output))`
on failure (an exit-status future error propagates). -/
def ChildModel.result (c : ChildModel) : Option (Except CmdError String) :=
  match c.stream with
  | none => none
  | some ls =>
    some (match c.exitStatus with
      | .error e => .error (.other e)
      | .ok st =>
        if st.success then .ok (foldOutput ls)
        else .error (.command (foldOutput ls)))

/-! ## Requests and the idempotence wrappers
(`src/core/src/request.rs`, `src/core/src/package/mod.rs`,
`src/core/src/service/mod.rs`) -/

/-- The closed request union (`Request` in `src/core/src/request.rs`). -/
inductive Request where
  | commandExec (cmd : List String)
  | packageInstalled (name : String)
  | packageInstall (name : String)
  | packageUninstall (name : String)
  | serviceRunning (name : String)
  | serviceAction (name : String) (action : String)
  | serviceEnabled (name : String)
  | serviceEnable (name : String)
  | serviceDisable (name : String)
  | telemetryLoad
deriving DecidableEq, Repr

/-- The host's responses to the query requests the idempotence wrappers
issue (`Package::installed`, `Service::running`, `Service::enabled` each
resolve to a `bool` through `host.request(..)`). -/
structure HostModel where
  installedResp : String → Bool
  runningResp : String → Bool
  enabledResp : String → Bool

/-- A host on which every queried package is installed and every queried
service is running and enabled. -/
def runningHost : HostModel :=
  { installedResp := fun _ => true
    runningResp := fun _ => true
    enabledResp := fun _ => true }

/-- `Package::install` (`src/core/src/package/mod.rs:129-144`): resolve
`installed()` first; if `true`, resolve to `none`; otherwise issue
`PackageInstall` and resolve to the resulting `Child` (represented here by
the request that spawned it). The second component lists the requests
issued, in order. -/
def Package.install (h : HostModel) (name : String) :
    Option Request × List Request :=
  if h.installedResp name then
    (none, [.packageInstalled name])
  else
    (some (.packageInstall name), [.packageInstalled name, .packageInstall name])

/-- `Package::uninstall` (`src/core/src/package/mod.rs:160-175`): resolve
`installed()` first; if `true`, issue `PackageUninstall` and resolve to the
resulting `Child`; otherwise resolve to `none`. -/
def Package.uninstall (h : HostModel) (name : String) :
    Option Request × List Request :=
  if h.installedResp name then
    (some (.packageUninstall name), [.packageInstalled name, .packageUninstall name])
  else
    (none, [.packageInstalled name])

/-- `Service::action` (`src/core/src/service/mod.rs:148-167`): for `start` or
`stop`, resolve `running()` first and resolve to `none` when
`(running && action == "start") || (!running && action == "stop")`;
otherwise (and for every other verb, without checking) delegate to
`ServiceAction`. -/
def Service.action (h : HostModel) (name act : String) :
    Option Request × List Request :=
  if act == "start" || act == "stop" then
    if (h.runningResp name && act == "start") || (!(h.runningResp name) && act == "stop") then
      (none, [.serviceRunning name])
    else
      (some (.serviceAction name act), [.serviceRunning name, .serviceAction name act])
  else
    (some (.serviceAction name act), [.serviceAction name act])

/-- `Service::enable` (`src/core/src/service/mod.rs:194-209`): resolve
`enabled()` first; if `true`, resolve to `none`; otherwise issue
`ServiceEnable`. -/
def Service.enable (h : HostModel) (name : String) :
    Option Unit × List Request :=
  if h.enabledResp name then
    (none, [.serviceEnabled name])
  else
    (some (), [.serviceEnabled name, .serviceEnable name])

/-- `Service::disable` (`src/core/src/service/mod.rs:225-240`): resolve
`enabled()` first; if `true`, issue `ServiceDisable`; otherwise resolve to
`none`. -/
def Service.disable (h : HostModel) (name : String) :
    Option Unit × List Request :=
  if h.enabledResp name then
    (some (), [.serviceEnabled name, .serviceDisable name])
  else
    (none, [.serviceEnabled name])

/-! ## Provider factories (`src/core/src/package/providers/mod.rs:36-57`,
`src/core/src/service/providers/mod.rs:50-66`)

Each `available()` probe returns `Result<bool>` in the source (a probe that
shells out can fail, e.g. `Systemd::available` errors when `/usr/bin/stat`
fails); the `?` operator propagates such an error out of the factory. The
probe outcomes are the factory's input here. -/

/-- The candidate `Package` providers, in factory priority order. -/
inductive PackageProviderKind where
  | apt | dnf | homebrew | nix | pkg | yum
deriving DecidableEq, Repr

/-- The candidate `Service` providers, in factory priority order. -/
inductive ServiceProviderKind where
  | systemd | debian | homebrew | launchctl | rc | redhat
deriving DecidableEq, Repr

/-- A factory error: `ErrorKind::ProviderUnavailable(endpoint)` or a probe
error propagated by `?`. -/
inductive ProviderError where
  | providerUnavailable (endpoint : String)
  | probe (msg : String)
deriving DecidableEq, Repr

/-- Outcomes of the six `PackageProvider::available()` probes. -/
structure PackageProbes where
  apt : Except String Bool
  dnf : Except String Bool
  homebrew : Except String Bool
  nix : Except String Bool
  pkg : Except String Bool
  yum : Except String Bool

/-- Outcomes of the six `ServiceProvider::available(telemetry)` probes. -/
structure ServiceProbes where
  systemd : Except String Bool
  debian : Except String Bool
  homebrew : Except String Bool
  launchctl : Except String Bool
  rc : Except String Bool
  redhat : Except String Bool

/-- Lift a probe outcome into the factory's error type (the `?` operator). -/
def liftProbe (r : Except String Bool) : Except ProviderError Bool :=
  match r with
  | .ok b => .ok b
  | .error e => .error (.probe e)

/-- `package::providers::factory` (`src/core/src/package/providers/mod.rs:36-57`):
try `Apt`, `Dnf`, `Homebrew`, `Nix`, `Pkg`, `Yum` in order, returning the
first whose probe yields `true`; `ProviderUnavailable("Package")` when all
yield `false`; a probe error propagates. -/
def packageFactory (p : PackageProbes) : Except ProviderError PackageProviderKind := do
  if (← liftProbe p.apt) then return .apt
  else if (← liftProbe p.dnf) then return .dnf
  else if (← liftProbe p.homebrew) then return .homebrew
  else if (← liftProbe p.nix) then return .nix
  else if (← liftProbe p.pkg) then return .pkg
  else if (← liftProbe p.yum) then return .yum
  else throw (.providerUnavailable "Package")

/-- `service::providers::factory` (`src/core/src/service/providers/mod.rs:50-66`):
try `Systemd`, `Debian`, `Homebrew`, `Launchctl`, `Rc`, `Redhat` in order,
returning the first whose probe yields `true`; `ProviderUnavailable("Service")`
when all yield `false`; a probe error propagates. -/
def serviceFactory (p : ServiceProbes) : Except ProviderError ServiceProviderKind := do
  if (← liftProbe p.systemd) then return .systemd
  else if (← liftProbe p.debian) then return .debian
  else if (← liftProbe p.homebrew) then return .homebrew
  else if (← liftProbe p.launchctl) then return .launchctl
  else if (← liftProbe p.rc) then return .rc
  else if (← liftProbe p.redhat) then return .redhat
  else throw (.providerUnavailable "Service")

/-- Restated from the spec for comparison: pick the first candidate in the
priority list whose availability flag is true. -/
def firstAvailable {κ : Type} (candidates : List (κ × Bool)) : Option κ :=
  (candidates.find? (fun c => c.2)).map (fun c => c.1)

/-- The boolean value of a completed probe (meaningful only under the
hypothesis that the probe did not error). -/
def probeBool (r : Except String Bool) : Bool :=
  match r with
  | .ok b => b
  | .error _ => false

/-- Whether a probe completed with a boolean. -/
def probeOk (r : Except String Bool) : Bool :=
  match r with
  | .ok _ => true
  | .error _ => false

/-- The totality predicate the claim asserts of a factory outcome: the
factory yielded either a provider or `ProviderUnavailable`. -/
def totalOutcome {κ : Type} (r : Except ProviderError κ) : Bool :=
  match r with
  | .ok _ => true
  | .error (.providerUnavailable _) => true
  | .error (.probe _) => false

/-- Probe outcomes on which the package factory's totality fails: the very
first probe (`Apt::available()`) errors — e.g. `/usr/bin/type` could not be
spawned, the `chain_err` context being
`"Could not determine provider availability"`. -/
def failingPackageProbes : PackageProbes :=
  { apt := .error "Could not determine provider availability"
    dnf := .ok false, homebrew := .ok false, nix := .ok false
    pkg := .ok false, yum := .ok false }

/-- Probe outcomes of a Debian host on which every probe completed: only
`apt-get` is on the `PATH`. -/
def debianPackageProbes : PackageProbes :=
  { apt := .ok true, dnf := .ok false, homebrew := .ok false
    nix := .ok false, pkg := .ok false, yum := .ok false }

/-- Probe outcomes of a BSD host on which every probe completed: only the
`rc` service manager is available. -/
def bsdServiceProbes : ServiceProbes :=
  { systemd := .ok false, debian := .ok false, homebrew := .ok false
    launchctl := .ok false, rc := .ok true, redhat := .ok false }

/-! ## The agent's request handler (`src/agent/src/main.rs:51-61,136-143`) -/

/-- A response message header: the `Result`-shaped envelope
(`{"Ok": value}` or `{"Err": string}`), the `Ok` payload kept abstract as its
serialized text. -/
inductive RespHeader where
  | okHdr (v : String)
  | errHdr (msg : String)
deriving DecidableEq, Repr

/-- A response message: envelope header plus has-body flag. -/
structure OutMessage where
  header : RespHeader
  hasBody : Bool
deriving DecidableEq, Repr

/-- `chain_err`: wrap a lower-level error with a context line; the rendered
display chain is modelled as the context joined to the cause. -/
def chainErr (ctx cause : String) : String :=
  ctx ++ ": " ++ cause

/-- `error_to_msg` (`src/agent/src/main.rs:136-143`): render the error chain
into the `Err(string)` envelope of a body-less message. -/
def errorToMsg (e : String) : OutMessage :=
  { header := .errHdr e, hasBody := false }

/-- `impl Service for Api`, `fn call` (`src/agent/src/main.rs:51-61`): a
request that fails to parse is answered with `Ok(error_to_msg(..))` — a
normal response carrying the `Err` envelope; a request that parses is
executed, and an execution failure is returned as an error of the service
future itself (`chain_err(|| "Failed to execute Request")`), not converted
into a response message. -/
def apiCall (parsed : Except String Request)
    (exec : Request → Except String OutMessage) : Except String OutMessage :=
  match parsed with
  | .error e => .ok (errorToMsg (chainErr "Malformed Request" e))
  | .ok r =>
    match exec r with
    | .ok m => .ok m
    | .error e => .error (chainErr "Failed to execute Request" e)

/-- Whether a handler outcome is a normal response whose header is the
`Err(string)` envelope. -/
def repliesWithErrEnvelope (r : Except String OutMessage) : Bool :=
  match r with
  | .ok m =>
    match m.header with
    | .errHdr _ => true
    | .okHdr _ => false
  | .error _ => false

/-- An execution outcome that fails (e.g. `CommandExec` whose process could
not be spawned: `"Command execution failed"`). -/
def failingExec : Request → Except String OutMessage :=
  fun _ => .error "Command execution failed"


/-! ## Helper lemmas -/

theorem sentinelValue_eq_none_of_not (s : String) (h : isSentinel s = false) :
    sentinelValue s = none := by
  unfold isSentinel at h
  cases hv : sentinelValue s with
  | none => rfl
  | some st => rw [hv] at h; simp at h

theorem isSentinel_of_some (s : String) (st : ExitStatus)
    (h : sentinelValue s = some st) : isSentinel s = true := by
  unfold isSentinel
  rw [h]
  rfl

theorem runFilter_false_of_no_sentinel (cs : List String)
    (h : ∀ s ∈ cs, isSentinel s = false) :
    runFilter false cs = (some cs, none) := by
  induction cs with
  | nil => rfl
  | cons s rest ih =>
    have hs : sentinelValue s = none :=
      sentinelValue_eq_none_of_not s (h s (by simp))
    have ihh := ih (fun x hx => h x (by simp [hx]))
    simp [runFilter, hs, ihh]

theorem countP_cons_sentinel (s : String) (rest : List String)
    (hs : isSentinel s = true) :
    (s :: rest).countP isSentinel = rest.countP isSentinel + 1 := by
  rw [List.countP_cons, hs]
  simp

theorem countP_cons_not_sentinel (s : String) (rest : List String)
    (hs : isSentinel s = false) :
    (s :: rest).countP isSentinel = rest.countP isSentinel := by
  rw [List.countP_cons, hs]
  simp

theorem countP_le_one_head_sentinel (s : String) (rest : List String)
    (h : (s :: rest).countP isSentinel ≤ 1) (hs : isSentinel s = true) :
    ∀ x ∈ rest, isSentinel x = false := by
  rw [countP_cons_sentinel s rest hs] at h
  intro x hx
  by_contra hcon
  have hx1 : isSentinel x = true := by
    cases hv : isSentinel x with
    | false => exact absurd hv hcon
    | true => rfl
  have hpos : 0 < rest.countP isSentinel :=
    List.countP_pos_iff.mpr ⟨x, hx, by simp [hx1]⟩
  omega

theorem runFilter_true_eq (cs : List String) (h : cs.countP isSentinel ≤ 1) :
    runFilter true cs =
      (some (cs.filter (fun s => !(isSentinel s))),
        Option.bind (cs.find? isSentinel) sentinelValue) := by
  induction cs with
  | nil => rfl
  | cons s rest ih =>
    cases hv : sentinelValue s with
    | some st =>
      have hsent : isSentinel s = true := isSentinel_of_some s st hv
      have hzero := countP_le_one_head_sentinel s rest h hsent
      have hfilter : rest.filter (fun x => !(isSentinel x)) = rest := by
        rw [List.filter_eq_self]
        intro x hx
        simp [hzero x hx]
      simp [runFilter, hv, runFilter_false_of_no_sentinel rest hzero,
        List.filter_cons, hsent, List.find?_cons_of_pos, hfilter]
    | none =>
      have hsent : isSentinel s = false := by unfold isSentinel; rw [hv]; rfl
      have h' : rest.countP isSentinel ≤ 1 := by
        rw [countP_cons_not_sentinel s rest hsent] at h
        exact h
      have ihh := ih h'
      have hfind : (s :: rest).find? isSentinel = rest.find? isSentinel :=
        List.find?_cons_of_neg _ (by simp [hsent])
      simp [runFilter, hv, ihh, List.filter_cons, hsent, hfind]

theorem runFilter_false_fst_none_iff (cs : List String) :
    (runFilter false cs).1 = none ↔ 1 ≤ cs.countP isSentinel := by
  induction cs with
  | nil => simp [runFilter]
  | cons s rest ih =>
    cases hv : sentinelValue s with
    | some st =>
      have hsent : isSentinel s = true := isSentinel_of_some s st hv
      rw [countP_cons_sentinel s rest hsent]
      simp [runFilter, hv]
    | none =>
      have hsent : isSentinel s = false := by unfold isSentinel; rw [hv]; rfl
      rw [countP_cons_not_sentinel s rest hsent]
      rcases hr : runFilter false rest with ⟨p, sent⟩
      rw [hr] at ih
      simp only [runFilter, hv, hr]
      cases p with
      | none => simpa using ih
      | some q => simpa using ih

theorem runFilter_true_fst_none_iff (cs : List String) :
    (runFilter true cs).1 = none ↔ 2 ≤ cs.countP isSentinel := by
  induction cs with
  | nil => simp [runFilter]
  | cons s rest ih =>
    cases hv : sentinelValue s with
    | some st =>
      have hsent : isSentinel s = true := isSentinel_of_some s st hv
      rw [countP_cons_sentinel s rest hsent]
      have hstep : (runFilter true (s :: rest)).1 = (runFilter false rest).1 := by
        simp [runFilter, hv]
      rw [hstep, runFilter_false_fst_none_iff rest]
      omega
    | none =>
      have hsent : isSentinel s = false := by unfold isSentinel; rw [hv]; rfl
      rw [countP_cons_not_sentinel s rest hsent]
      rcases hr : runFilter true rest with ⟨p, sent⟩
      rw [hr] at ih
      simp only [runFilter, hv, hr]
      cases p with
      | none => simpa using ih
      | some q => simpa using ih

theorem find?_eq_of_unique_sentinel (cs : List String) (s : String)
    (h : cs.countP isSentinel ≤ 1) (hmem : s ∈ cs) (hs : isSentinel s = true) :
    cs.find? isSentinel = some s := by
  induction cs with
  | nil => simp at hmem
  | cons a rest ih =>
    cases ha : isSentinel a with
    | true =>
      have hzero := countP_le_one_head_sentinel a rest h ha
      have heq : s = a := by
        rcases List.mem_cons.mp hmem with h1 | h1
        · exact h1
        · rw [hzero s h1] at hs; exact absurd hs (by simp)
      rw [List.find?_cons_of_pos _ (by simp [ha]), heq]
    | false =>
      have hmem' : s ∈ rest := by
        rcases List.mem_cons.mp hmem with h1 | h1
        · subst h1; rw [ha] at hs; exact absurd hs (by simp)
        · exact h1
      have h' : rest.countP isSentinel ≤ 1 := by
        rw [countP_cons_not_sentinel a rest ha] at h
        exact h
      rw [List.find?_cons_of_neg _ (by simp [ha])]
      exact ih h' hmem'

theorem runFilter_snd_of_unique (cs : List String) (s : String) (st : ExitStatus)
    (h : cs.countP isSentinel ≤ 1) (hmem : s ∈ cs)
    (hv : sentinelValue s = some st) :
    (runFilter true cs).2 = some st := by
  rw [runFilter_true_eq cs h,
    find?_eq_of_unique_sentinel cs s h hmem (isSentinel_of_some s st hv)]
  simpa using hv

theorem runFilter_snd_of_no_sentinel (cs : List String)
    (h : ∀ s ∈ cs, isSentinel s = false) :
    (runFilter true cs).2 = none := by
  have hcount : cs.countP isSentinel ≤ 1 := by
    have : cs.countP isSentinel = 0 :=
      List.countP_eq_zero.mpr (fun a ha => by simp [h a ha])
    omega
  rw [runFilter_true_eq cs hcount]
  cases hf : cs.find? isSentinel with
  | none => rfl
  | some a =>
    have := List.find?_some hf
    rw [h a (List.mem_of_find?_eq_some hf)] at this
    exact absurd this (by simp)

theorem splitLine_append (l r : List Nat) (hl : 10 ∉ l) :
    splitLine (l ++ 10 :: r) = some (l, r) := by
  induction l with
  | nil => simp [splitLine]
  | cons b bs ih =>
    have hb : ¬(b = 10) := by
      intro hb
      exact hl (by simp [hb])
    have hbs : 10 ∉ bs := fun hm => hl (by simp [hm])
    simp [splitLine, hb, ih hbs]

theorem decodeAll_of_splitLine_none (head : Bool) (buf : List Nat)
    (h : splitLine buf = none) : decodeAll head buf = .frames [] := by
  rw [decodeAll.eq_def, h]

theorem decodeAll_body_frames (cs : List (List Nat))
    (hc : ∀ c ∈ cs, c ≠ [] ∧ 10 ∉ c) :
    decodeAll false
        ((cs.map (fun c => encodeFrame (.bodyChunk (some c)))).flatten ++ [10]) =
      .frames (cs.map (fun c => Frame.bodyChunk (some c)) ++ [Frame.bodyChunk none]) := by
  induction cs with
  | nil =>
    have h1 : splitLine ([10] : List Nat) = some ([], []) := by simp [splitLine]
    have h2 : decodeAll true ([] : List Nat) = .frames [] :=
      decodeAll_of_splitLine_none true [] (by simp [splitLine])
    simp only [List.map_nil, List.flatten_nil, List.nil_append]
    rw [decodeAll.eq_def, h1]
    simp [h2]
  | cons c rest ih =>
    have hcc := hc c (by simp)
    have hrest : ∀ x ∈ rest, x ≠ [] ∧ 10 ∉ x := fun x hx => hc x (by simp [hx])
    have hbuf :
        (((c :: rest).map (fun x => encodeFrame (.bodyChunk (some x)))).flatten ++ [10])
          = c ++ 10 ::
            ((rest.map (fun x => encodeFrame (.bodyChunk (some x)))).flatten ++ [10]) := by
      simp [encodeFrame, List.append_assoc]
    have hsplit := splitLine_append c
      ((rest.map (fun x => encodeFrame (.bodyChunk (some x)))).flatten ++ [10]) hcc.2
    rw [hbuf, decodeAll.eq_def, hsplit]
    simp [hcc.1, ih hrest]

theorem decodeAll_roundtrip_with_body (hdr : List Nat) (cs : List (List Nat))
    (hnl : 10 ∉ hdr)
    (hc : ∀ c ∈ cs, c ≠ [] ∧ 10 ∉ c) :
    decodeAll true (encodeMessage hdr (some cs)) =
      .frames (.message hdr true ::
        (cs.map (fun c => Frame.bodyChunk (some c)) ++ [Frame.bodyChunk none])) := by
  have hbuf : encodeMessage hdr (some cs) =
      (hdr ++ [1]) ++ 10 ::
        ((cs.map (fun c => encodeFrame (.bodyChunk (some c)))).flatten ++ [10]) := by
    simp [encodeMessage, encodeFrame, List.append_assoc]
  have hflag : (10 : Nat) ∉ hdr ++ [1] := by
    intro hm
    rcases List.mem_append.mp hm with hm | hm
    · exact hnl hm
    · simp at hm
  have hsplit := splitLine_append (hdr ++ [1])
    ((cs.map (fun c => encodeFrame (.bodyChunk (some c)))).flatten ++ [10]) hflag
  rw [hbuf, decodeAll.eq_def, hsplit]
  have hlast : (hdr ++ [1]).getLast? = some 1 := by
    simp [List.getLast?_concat]
  have hdrop : (hdr ++ [1]).dropLast = hdr := by
    simp [List.dropLast_concat]
  simp [hlast, hdrop, decodeAll_body_frames cs hc]

theorem countP_end_marker (hdr : List Nat) (cs : List (List Nat)) :
    (Frame.message hdr true ::
      (cs.map (fun c => Frame.bodyChunk (some c)) ++ [Frame.bodyChunk none])).countP
        (fun f => decide (f = Frame.bodyChunk none)) = 1 := by
  have hmap : (cs.map (fun c => Frame.bodyChunk (some c))).countP
      (fun f => decide (f = Frame.bodyChunk none)) = 0 := by
    rw [List.countP_eq_zero]
    intro a ha
    simp only [List.mem_map] at ha
    rcases ha with ⟨c, _, rfl⟩
    simp
  rw [List.countP_cons, List.countP_append, hmap]
  simp

theorem intoMsgBody_lines (ls : List String) (st : ExitStatus) :
    intoMsgBody (ls.map ChildEvent.line) st = ls := by
  induction ls with
  | nil => rfl
  | cons s rest ih => simp [intoMsgBody, ih]

theorem intoMsgBody_split (l1 l2 : List String) (st : ExitStatus) :
    intoMsgBody (l1.map ChildEvent.line ++ ChildEvent.exited :: l2.map ChildEvent.line) st =
      l1 ++ sentinelText st :: l2 := by
  induction l1 with
  | nil => simp [intoMsgBody, intoMsgBody_lines]
  | cons s rest ih => simp [intoMsgBody, ih]

theorem intoMsgBody_append (ls : List String) (st : ExitStatus) :
    intoMsgBody (ls.map ChildEvent.line ++ [ChildEvent.exited]) st =
      ls ++ [sentinelText st] := by
  have h := intoMsgBody_split ls [] st
  simpa using h

theorem probeOk_exists (r : Except String Bool) (h : probeOk r = true) :
    ∃ b, r = .ok b := by
  cases r with
  | ok b => exact ⟨b, rfl⟩
  | error e => simp [probeOk] at h

/-! ## The claims -/

/-- Counterexample for C1: `into_msg` does not serialize the sentinel send
after the output sends — the exit-status future resolves when the process is
reaped, independently of pipe drain, and the cloned sender `tx2` holds its
own guaranteed channel slot, so with the child already exited and output
chunks parked under backpressure the sends can reach the body channel in the
order `line "a"`, `exited`, `line "b"`. On that reachable schedule the body
is `["a", sentinel, "b"]`: its last chunk is `"b"`, which is not a sentinel
chunk, and the sentinel is not last — refuting the claimed strictly-last
ordering. -/
theorem c1_sentinel_not_last_cex :
    intoMsgBody [ChildEvent.line "a", ChildEvent.exited, ChildEvent.line "b"]
        ⟨true, some 0⟩ =
      ["a", sentinelText ⟨true, some 0⟩, "b"] ∧
    (intoMsgBody [ChildEvent.line "a", ChildEvent.exited, ChildEvent.line "b"]
        ⟨true, some 0⟩).getLast? = some "b" ∧
    ¬("b" = sentinelText ⟨true, some 0⟩) ∧
    isSentinel (sentinelText ⟨true, some 0⟩) = true ∧
    isSentinel "b" = false :=
  ⟨rfl, rfl, by decide, by decide, by decide⟩

/-- C1 (amended): the task spawned by `into_msg` sends each output chunk in
stream order and sends exactly one sentinel chunk — the literal prefix
`ExitStatus:` followed by the JSON encoding of `{success, code}` — at the
point where the exit-status future resolves: for every split of the output
lines around the exit event, the body is the earlier output chunks, the
sentinel, then the remaining output chunks. The sentinel is strictly last
precisely on the schedules where the exit-status future resolves after the
output stream has been fully forwarded; it is not guaranteed to be last in
general. -/
theorem c1_server_body_sentinel_once (l1 l2 : List String) (st : ExitStatus) :
    intoMsgBody (l1.map ChildEvent.line ++ ChildEvent.exited :: l2.map ChildEvent.line) st =
      l1 ++ sentinelText st :: l2 ∧
    intoMsgBody (l1.map ChildEvent.line ++ [ChildEvent.exited]) st =
      l1 ++ [sentinelText st] ∧
    (intoMsgBody (l1.map ChildEvent.line ++ [ChildEvent.exited]) st).getLast? =
      some (sentinelText st) ∧
    (intoMsgBody (l1.map ChildEvent.line ++ [ChildEvent.exited]) st).dropLast = l1 ∧
    sentinelText st = "ExitStatus:" ++ ExitStatus.toJson st := by
  have h := intoMsgBody_append l1 st
  refine ⟨intoMsgBody_split l1 l2 st, h, ?_, ?_, rfl⟩
  · rw [h, List.getLast?_concat]
  · rw [h, List.dropLast_concat]

/-- C2: decoding the byte stream produced by encoding a message whose header
bytes contain no newline and whose body chunks are non-empty and
newline-free yields the same header value, the same has-body flag, the same
chunks in identical order, and exactly one end-of-stream marker. -/
theorem c2_codec_roundtrip (hdr : List Nat) (cs : List (List Nat))
    (hnl : 10 ∉ hdr) (hc : ∀ c ∈ cs, c ≠ [] ∧ 10 ∉ c) :
    decodeAll true (encodeMessage hdr (some cs)) =
      .frames (.message hdr true ::
        (cs.map (fun c => Frame.bodyChunk (some c)) ++ [Frame.bodyChunk none])) ∧
    (Frame.message hdr true ::
      (cs.map (fun c => Frame.bodyChunk (some c)) ++ [Frame.bodyChunk none])).countP
        (fun f => decide (f = Frame.bodyChunk none)) = 1 :=
  ⟨decodeAll_roundtrip_with_body hdr cs hnl hc, countP_end_marker hdr cs⟩

/-- Witness for C2: the round trip at a concrete message — header byte `t`,
body chunks `a` and `b`. -/
theorem c2_codec_roundtrip_witness :
    decodeAll true (encodeMessage [116] (some [[97], [98]])) =
      .frames (.message [116] true ::
        ([[97], [98]].map (fun c => Frame.bodyChunk (some c)) ++ [Frame.bodyChunk none])) ∧
    (Frame.message [116] true ::
      ([[97], [98]].map (fun c => Frame.bodyChunk (some c)) ++ [Frame.bodyChunk none])).countP
        (fun f => decide (f = Frame.bodyChunk none)) = 1 :=
  c2_codec_roundtrip [116] [[97], [98]] (by decide) (by decide)

/-- C3: on a body whose chunk list carries at most one valid sentinel (the
producer emits exactly one), the client-side filter of
`impl FromMessage for Child` consumes every chunk that starts with
`ExitStatus:` and parses, fulfilling the oneshot with its decoded value, and
passes every other chunk through to the line stream unchanged and in
order. -/
theorem c3_client_filter (cs : List String) (h : cs.countP isSentinel ≤ 1) :
    runFilter true cs =
      (some (cs.filter (fun s => !(isSentinel s))),
        Option.bind (cs.find? isSentinel) sentinelValue) ∧
    (∀ s ∈ cs, ∀ st, sentinelValue s = some st → (runFilter true cs).2 = some st) ∧
    ((∀ s ∈ cs, isSentinel s = false) → (runFilter true cs).2 = none) := by
  refine ⟨runFilter_true_eq cs h, ?_, runFilter_snd_of_no_sentinel cs⟩
  intro s hmem st hv
  exact runFilter_snd_of_unique cs s st h hmem hv

/-- Witness for C3: a body with one output chunk and one sentinel chunk. -/
theorem c3_client_filter_witness :
    runFilter true ["out", "ExitStatus:\x7b\"success\":true,\"code\":0\x7d"] =
      (some ((["out", "ExitStatus:\x7b\"success\":true,\"code\":0\x7d"]).filter
          (fun s => !(isSentinel s))),
        Option.bind ((["out", "ExitStatus:\x7b\"success\":true,\"code\":0\x7d"]).find?
          isSentinel) sentinelValue) :=
  (c3_client_filter ["out", "ExitStatus:\x7b\"success\":true,\"code\":0\x7d"] (by decide)).1

/-- C4: `Package.install` evaluates `installed` first and resolves to `none`
exactly when the package is installed, and otherwise issues `PackageInstall`
and resolves to the resulting `Child`; symmetrically `Package.uninstall`
resolves to `none` exactly when the package is not installed, and otherwise
issues `PackageUninstall`. -/
theorem c4_package_idempotence (h : HostModel) (n : String) :
    ((Package.install h n).1 = none ↔ h.installedResp n = true) ∧
    ((Package.install h n).1 = some (.packageInstall n) ↔ h.installedResp n = false) ∧
    ((Package.install h n).2.head? = some (.packageInstalled n)) ∧
    (Request.packageInstall n ∈ (Package.install h n).2 ↔ h.installedResp n = false) ∧
    ((Package.uninstall h n).1 = none ↔ h.installedResp n = false) ∧
    ((Package.uninstall h n).1 = some (.packageUninstall n) ↔ h.installedResp n = true) ∧
    ((Package.uninstall h n).2.head? = some (.packageInstalled n)) ∧
    (Request.packageUninstall n ∈ (Package.uninstall h n).2 ↔ h.installedResp n = true) := by
  cases hi : h.installedResp n <;>
    simp [Package.install, Package.uninstall, hi]

/-- C5: for the verbs `start` and `stop`, `Service.action` evaluates
`running` first and resolves to `none` exactly when
`running = (verb == "start")`, otherwise delegating to `ServiceAction`; for
every other verb it delegates unconditionally without checking `running`;
`Service.enable` and `Service.disable` evaluate `enabled` first and resolve
to `none` when the desired state already holds. -/
theorem c5_service_idempotence (h : HostModel) (n v : String) :
    ((v = "start" ∨ v = "stop") →
      (((Service.action h n v).1 = none) ↔ h.runningResp n = (v == "start")) ∧
      ((Service.action h n v).2.head? = some (.serviceRunning n))) ∧
    (¬(v = "start" ∨ v = "stop") →
      Service.action h n v = (some (.serviceAction n v), [.serviceAction n v])) ∧
    ((Service.enable h n).1 = none ↔ h.enabledResp n = true) ∧
    ((Service.disable h n).1 = none ↔ h.enabledResp n = false) := by
  refine ⟨?_, ?_, ?_, ?_⟩
  · rintro (rfl | rfl) <;> cases hr : h.runningResp n <;>
      simp [Service.action, hr]
  · intro hv
    have h1 : (v == "start") = false := by
      simp only [beq_eq_false_iff_ne]
      exact fun he => hv (Or.inl he)
    have h2 : (v == "stop") = false := by
      simp only [beq_eq_false_iff_ne]
      exact fun he => hv (Or.inr he)
    simp [Service.action, h1, h2]
  · cases he : h.enabledResp n <;> simp [Service.enable, he]
  · cases he : h.enabledResp n <;> simp [Service.disable, he]

/-- Witness for C5: on a host where `nginx` is running, `action "start"`
resolves to `none` after checking `running`; the verb `restart` delegates
unconditionally. -/
theorem c5_service_idempotence_witness :
    ((((Service.action runningHost "nginx" "start").1 = none) ↔
        runningHost.runningResp "nginx" = ("start" == "start")) ∧
      ((Service.action runningHost "nginx" "start").2.head? =
        some (Request.serviceRunning "nginx"))) ∧
    Service.action runningHost "nginx" "restart" =
      (some (Request.serviceAction "nginx" "restart"),
        [Request.serviceAction "nginx" "restart"]) :=
  ⟨(c5_service_idempotence runningHost "nginx" "start").1 (Or.inl rfl),
    (c5_service_idempotence runningHost "nginx" "restart").2.1 (by decide)⟩

/-- Counterexample for C6: the probes return `Result<bool>` and the factory
propagates a probe error with `?`, so on an outcome where the very first
probe (`Apt::available()`) errors, the factory returns that probe error —
neither a provider nor `ProviderUnavailable`. The claimed totality fails. -/
theorem c6_factory_not_total_cex :
    packageFactory failingPackageProbes =
      Except.error (ProviderError.probe "Could not determine provider availability") ∧
    totalOutcome (packageFactory failingPackageProbes) = false :=
  ⟨rfl, rfl⟩

/-- C6 (amended): restricted to probe outcomes in which every availability
probe completes with a boolean, each factory returns the first provider in
its fixed priority order (Package: Apt, Dnf, Homebrew, Nix, Pkg, Yum;
Service: Systemd, Debian, Homebrew, Launchctl, Rc, Redhat) whose probe is
true, and `ProviderUnavailable` naming the endpoint when all are false; a
probe error is instead propagated as that probe's error. -/
theorem c6_factory_first_available (p : PackageProbes) (q : ServiceProbes)
    (hp : probeOk p.apt = true ∧ probeOk p.dnf = true ∧ probeOk p.homebrew = true ∧
      probeOk p.nix = true ∧ probeOk p.pkg = true ∧ probeOk p.yum = true)
    (hq : probeOk q.systemd = true ∧ probeOk q.debian = true ∧ probeOk q.homebrew = true ∧
      probeOk q.launchctl = true ∧ probeOk q.rc = true ∧ probeOk q.redhat = true) :
    packageFactory p =
      (match firstAvailable [(PackageProviderKind.apt, probeBool p.apt),
          (PackageProviderKind.dnf, probeBool p.dnf),
          (PackageProviderKind.homebrew, probeBool p.homebrew),
          (PackageProviderKind.nix, probeBool p.nix),
          (PackageProviderKind.pkg, probeBool p.pkg),
          (PackageProviderKind.yum, probeBool p.yum)] with
        | some k => Except.ok k
        | none => Except.error (ProviderError.providerUnavailable "Package")) ∧
    serviceFactory q =
      (match firstAvailable [(ServiceProviderKind.systemd, probeBool q.systemd),
          (ServiceProviderKind.debian, probeBool q.debian),
          (ServiceProviderKind.homebrew, probeBool q.homebrew),
          (ServiceProviderKind.launchctl, probeBool q.launchctl),
          (ServiceProviderKind.rc, probeBool q.rc),
          (ServiceProviderKind.redhat, probeBool q.redhat)] with
        | some k => Except.ok k
        | none => Except.error (ProviderError.providerUnavailable "Service")) := by
  obtain ⟨pa, pd, ph, pn, pp, py⟩ := p
  obtain ⟨qs, qd, qh, ql, qr, qe⟩ := q
  simp only at hp hq
  obtain ⟨b1, rfl⟩ := probeOk_exists pa hp.1
  obtain ⟨b2, rfl⟩ := probeOk_exists pd hp.2.1
  obtain ⟨b3, rfl⟩ := probeOk_exists ph hp.2.2.1
  obtain ⟨b4, rfl⟩ := probeOk_exists pn hp.2.2.2.1
  obtain ⟨b5, rfl⟩ := probeOk_exists pp hp.2.2.2.2.1
  obtain ⟨b6, rfl⟩ := probeOk_exists py hp.2.2.2.2.2
  obtain ⟨d1, rfl⟩ := probeOk_exists qs hq.1
  obtain ⟨d2, rfl⟩ := probeOk_exists qd hq.2.1
  obtain ⟨d3, rfl⟩ := probeOk_exists qh hq.2.2.1
  obtain ⟨d4, rfl⟩ := probeOk_exists ql hq.2.2.2.1
  obtain ⟨d5, rfl⟩ := probeOk_exists qr hq.2.2.2.2.1
  obtain ⟨d6, rfl⟩ := probeOk_exists qe hq.2.2.2.2.2
  constructor
  · cases b1 <;> cases b2 <;> cases b3 <;> cases b4 <;> cases b5 <;> cases b6 <;> rfl
  · cases d1 <;> cases d2 <;> cases d3 <;> cases d4 <;> cases d5 <;> cases d6 <;> rfl

/-- Witness for C6 (amended): a Debian host (only `apt-get` on the `PATH`)
selects `Apt`; a BSD host selects `Rc`. -/
theorem c6_factory_first_available_witness :
    packageFactory debianPackageProbes =
      (match firstAvailable [(PackageProviderKind.apt, probeBool debianPackageProbes.apt),
          (PackageProviderKind.dnf, probeBool debianPackageProbes.dnf),
          (PackageProviderKind.homebrew, probeBool debianPackageProbes.homebrew),
          (PackageProviderKind.nix, probeBool debianPackageProbes.nix),
          (PackageProviderKind.pkg, probeBool debianPackageProbes.pkg),
          (PackageProviderKind.yum, probeBool debianPackageProbes.yum)] with
        | some k => Except.ok k
        | none => Except.error (ProviderError.providerUnavailable "Package")) ∧
    serviceFactory bsdServiceProbes =
      (match firstAvailable [(ServiceProviderKind.systemd, probeBool bsdServiceProbes.systemd),
          (ServiceProviderKind.debian, probeBool bsdServiceProbes.debian),
          (ServiceProviderKind.homebrew, probeBool bsdServiceProbes.homebrew),
          (ServiceProviderKind.launchctl, probeBool bsdServiceProbes.launchctl),
          (ServiceProviderKind.rc, probeBool bsdServiceProbes.rc),
          (ServiceProviderKind.redhat, probeBool bsdServiceProbes.redhat)] with
        | some k => Except.ok k
        | none => Except.error (ProviderError.providerUnavailable "Service")) :=
  c6_factory_first_available debianPackageProbes bsdServiceProbes
    ⟨rfl, rfl, rfl, rfl, rfl, rfl⟩ ⟨rfl, rfl, rfl, rfl, rfl, rfl⟩

/-- C7: for a `Child` whose stream has not been taken, `result()` folds the
line stream into one output string and joins it with the exit status,
yielding `Ok(output)` when `success` is true and the `Command(output)` error
when it is false; after `take_stream()` has been called, `result()` returns
`none`. -/
theorem c7_child_result (ls : List String) (st : ExitStatus) (c : ChildModel) :
    ChildModel.result ⟨some ls, .ok st⟩ =
      some (if st.success then Except.ok (foldOutput ls)
        else Except.error (CmdError.command (foldOutput ls))) ∧
    (ChildModel.takeStream c).2.result = none ∧
    (ChildModel.takeStream c).1 = c.stream :=
  ⟨rfl, rfl, rfl⟩

/-- C8: for a remotely decoded `Child` over a body with at most one sentinel,
consuming the stream past the sentinel chunk resolves the `ExitStatus`
future to the decoded value, while dropping the stream before any sentinel
was consumed resolves it to the error
`"Stream dropped before ExitStatus was sent"`. -/
theorem c8_remote_exit_status (cs : List String) (k : Nat) :
    (∀ s ∈ cs.take k, ∀ st, (cs.take k).countP isSentinel ≤ 1 →
      sentinelValue s = some st → remoteExitStatus cs k = Except.ok st) ∧
    ((∀ s ∈ cs.take k, isSentinel s = false) →
      remoteExitStatus cs k = Except.error "Stream dropped before ExitStatus was sent") := by
  constructor
  · intro s hmem st hcount hv
    unfold remoteExitStatus
    rw [runFilter_snd_of_unique (cs.take k) s st hcount hmem hv]
  · intro hnone
    unfold remoteExitStatus
    rw [runFilter_snd_of_no_sentinel (cs.take k) hnone]

/-- Witness for C8: draining past the sentinel resolves the future to the
decoded status; dropping the stream after only the output chunk resolves it
to the stream-dropped error. -/
theorem c8_remote_exit_status_witness :
    remoteExitStatus ["out", "ExitStatus:\x7b\"success\":true,\"code\":0\x7d"] 2 =
      Except.ok ⟨true, some 0⟩ ∧
    remoteExitStatus ["out", "ExitStatus:\x7b\"success\":true,\"code\":0\x7d"] 1 =
      Except.error "Stream dropped before ExitStatus was sent" :=
  ⟨(c8_remote_exit_status ["out", "ExitStatus:\x7b\"success\":true,\"code\":0\x7d"] 2).1
      "ExitStatus:\x7b\"success\":true,\"code\":0\x7d" (by decide) ⟨true, some 0⟩
      (by decide) (by decide),
    (c8_remote_exit_status ["out", "ExitStatus:\x7b\"success\":true,\"code\":0\x7d"] 1).2
      (by decide)⟩

/-- Counterexample for C9: a request that parses but whose execution fails is
not answered with an `Err(string)` envelope response — `fn call` returns the
execution failure as an error of the service future itself
(`chain_err("Failed to execute Request")`), unlike the parse-failure path
which goes through `error_to_msg`. -/
theorem c9_exec_failure_not_envelope_cex :
    apiCall (Except.ok (Request.commandExec ["/bin/sh", "-c", "false"])) failingExec =
      Except.error "Failed to execute Request: Command execution failed" ∧
    repliesWithErrEnvelope
      (apiCall (Except.ok (Request.commandExec ["/bin/sh", "-c", "false"])) failingExec) =
      false :=
  ⟨rfl, rfl⟩

/-- C9 (amended): a request that fails to parse is answered with a body-less
response whose header is the `Err(string)` envelope (the connection stays
open: the service future succeeds); a request that parses but fails to
execute is instead propagated as an error of the service future, with the
context `"Failed to execute Request"`, and is not converted into an
envelope response by the agent. -/
theorem c9_agent_error_handling (e : String)
    (exec : Request → Except String OutMessage) (r : Request) (e2 : String) :
    apiCall (.error e) exec = .ok (errorToMsg (chainErr "Malformed Request" e)) ∧
    repliesWithErrEnvelope (apiCall (.error e) exec) = true ∧
    (errorToMsg (chainErr "Malformed Request" e)).hasBody = false ∧
    (exec r = .error e2 →
      apiCall (.ok r) exec = .error (chainErr "Failed to execute Request" e2)) := by
  refine ⟨rfl, rfl, rfl, ?_⟩
  intro hx
  simp [apiCall, hx]

/-- Witness for C9 (amended): the execution-failure path at a concrete
request. -/
theorem c9_agent_error_handling_witness :
    apiCall (Except.ok Request.telemetryLoad) failingExec =
      Except.error (chainErr "Failed to execute Request" "Command execution failed") :=
  (c9_agent_error_handling "Could not deserialize Request" failingExec
    Request.telemetryLoad "Command execution failed").2.2.2 rfl

/-- C10: client-side stream processing of a remotely decoded `Child` panics
(the oneshot sender is `take().unwrap()`ed a second time) exactly when the
body carries two or more valid sentinel chunks; with at most one sentinel
chunk it never panics. -/
theorem c10_double_sentinel_panic (cs : List String) :
    (runFilter true cs).1 = none ↔ 2 ≤ cs.countP isSentinel :=
  runFilter_true_fst_none_iff cs
